import Mathlib

/-!
# kvtm-auto device-session executor: shallow embedding and verification

This file embeds, as executable Lean definitions, the parts of the
kvtm-auto backend that the verified properties talk about:

* `GameOptions` and its pydantic field validators
  (`src/backend/src/models/script.py`);
* the JSON device registry operations (`src/backend/src/service/database.py`);
* the thread-based loop procedure `ScriptRunner._execute_script_with_loops`
  (`src/backend/src/service/script_runner.py`);
* the process-based loop procedure `Executor._execute_script_process`
  (`src/backend/src/core/executor.py`);
* the subprocess executor `Executor.run` / `Executor.stop`
  (`src/backend/src/service/executor.py`);
* the `ExecutionManager` variant (`src/apps/server/src/libs/execution_manager.py`);
* the device discovery / presence refresh passes
  (`src/backend/src/api/devices.py`, `src/backend/src/libs/device_manager.py`);
* the HTTP start endpoint's option normalisation (`src/backend/src/api/execute.py`);
* the sliced sleep helper `Core.sleep` (`src/backend/src/scripts/_core.py`).

Modelling conventions: Python ints are `Int` (loop indices that are known
non-negative are `Nat`), floats are `Rat`, raised exceptions are `Except`
errors carrying the exception message, `dict.get` with a default is an
`Option` read with `Option.getD`, wall-clock timestamps are opaque `String`
parameters, and a script entry point is a function from the loop index to
its call outcome (raise or returned result).  Numeric rendering inside log
messages uses `toString`, abstracting Python's float formatting.
-/

namespace KvtmAuto

/-! ## GameOptions (src/backend/src/models/script.py) -/

/-- Run options, mirroring the fields and defaults of the pydantic model
`GameOptions` in `src/backend/src/models/script.py`. -/
structure GameOptions where
  open_game : Bool := false
  open_chest : Bool := false
  sell_items : Bool := false
  max_loops : Int := 1000
  loop_delay : Rat := 1
  game_load_wait : Rat := 10
deriving Repr, DecidableEq

/-- The `validate_max_loops` field validator: rejects values below 1 or
above 1000, returns the value unchanged otherwise. -/
def validate_max_loops (value : Int) : Except String Int :=
  if value < 1 then .error "max_loops must be at least 1"
  else if value > 1000 then .error "max_loops cannot exceed 1000"
  else .ok value

/-- The `validate_delays` field validator (applied to `loop_delay` and
`game_load_wait`): rejects negative values, returns the value unchanged
otherwise. -/
def validate_delays (value : Rat) : Except String Rat :=
  if value < 0 then .error "Delay values must be non-negative"
  else .ok value

/-- Constructing a `GameOptions` from explicit field values runs the field
validators, as pydantic does at model construction time; any validator
error aborts construction. -/
def GameOptions.construct (og oc si : Bool) (ml : Int) (ld gw : Rat) :
    Except String GameOptions := do
  let ml ← validate_max_loops ml
  let ld ← validate_delays ld
  let gw ← validate_delays gw
  return { open_game := og, open_chest := oc, sell_items := si,
           max_loops := ml, loop_delay := ld, game_load_wait := gw }

/-! ## Device registry (src/backend/src/models/device.py,
src/backend/src/service/database.py)

`Database.save_device` additionally stamps a `last_updated` metadata
timestamp on the stored dict; that bookkeeping field is not modelled. -/

/-- A persisted device record, with the fields of the pydantic `Device`
model. -/
structure DeviceRec where
  id : String
  device_name : String
  device_status : String := "available"
  screen_size : Option (Int × Int) := none
  last_seen : Option String := none
  current_script : Option String := none
  game_options : Option GameOptions := none
deriving Repr, DecidableEq

/-- A Python dict read `m.get(k)` / `k in m`, over an association list. -/
def dictGet {α : Type} : List (String × α) → String → Option α
  | [], _ => none
  | p :: rest, k => if p.1 == k then some p.2 else dictGet rest k

/-- `Database.get_device`: the first stored record with the given id. -/
def db_get_device : List DeviceRec → String → Option DeviceRec
  | [], _ => none
  | d :: rest, device_id =>
    if d.id == device_id then some d else db_get_device rest device_id

/-- `Database.save_device`: replace the first record with the same id, or
append the record when no existing one matches. -/
def db_save_device : List DeviceRec → DeviceRec → List DeviceRec
  | [], device => [device]
  | x :: xs, device =>
    if x.id == device.id then device :: xs else x :: db_save_device xs device

/-- `Database.set_device_script`: record the current script and options and
mark the device `running`; a no-op when the device is unknown. -/
def db_set_device_script (reg : List DeviceRec) (device_id script_id : String)
    (game_options : Option GameOptions) : List DeviceRec :=
  match db_get_device reg device_id with
  | some d => db_save_device reg
      { d with current_script := some script_id,
               device_status := "running",
               game_options := game_options }
  | none => reg

/-- `Database.stop_device_script`: clear the binding and set the device back
to `available`, but only when the device exists and has a current script. -/
def db_stop_device_script (reg : List DeviceRec) (device_id : String) : List DeviceRec :=
  match db_get_device reg device_id with
  | some d =>
    if d.current_script.isSome then
      db_save_device reg
        { d with current_script := none,
                 game_options := none,
                 device_status := "available" }
    else reg
  | none => reg

/-! ## Script entry-point calls -/

/-- The result dict returned by a script `main`.  Every consumer reads the
keys with `dict.get(key, default)`, so each field is an `Option`; a missing
key is `none`.  (A script returning an *empty* dict is modelled as a result
with all fields `none`; the Python truthiness corner where `{}` itself is
falsy is not distinguished.) -/
structure ScriptResult where
  success : Option Bool := none
  message : Option String := none
  continue_loop : Option Bool := none
deriving Repr, DecidableEq

/-- Outcome of one invocation of a script entry point: the call raises an
`ImportError` while loading, raises some other exception, or returns
(`None` or a result dict). -/
inductive CallOutcome where
  | importError (msg : String)
  | raises (msg : String)
  | returns (result : Option ScriptResult)
deriving Repr, DecidableEq

namespace ScriptRunner

/-! ## ScriptRunner (src/backend/src/service/script_runner.py)

The `db` this module binds is the `Database` of `service/database.py`,
which defines `write_log` / `write_script_log` / `write_legacy_log` but no
`write_simple_log` — yet every device-log call in `script_runner.py` goes
through `db.write_simple_log`.  Each such call therefore raises
`AttributeError` at runtime, and the translation below models the sink
accordingly.  `logger.error` (the loguru application log) does exist and
its calls succeed. -/

/-- The rendering of the `AttributeError` raised by any `db.write_simple_log`
call (exception rendering is abstracted to one string). -/
def attrError : String :=
  "AttributeError: Database object has no attribute write_simple_log"

/-- `db.write_simple_log` as called throughout `script_runner.py`: the
method does not exist on the `Database` instance, so every call raises. -/
def write_simple_log (_device_id _msg : String) : Except String Unit :=
  Except.error attrError

/-- `logger.error` message of the per-iteration `except` clause, line 127. -/
def loopFailErr (k : Nat) (e : String) : String :=
  "Script execution failed on loop " ++ toString k ++ ": " ++ e

/-- `logger.error` message of the outer `except` clause, line 138. -/
def deviceFailErr (did e : String) : String :=
  "Script execution failed for device " ++ did ++ ": " ++ e

/-- `ScriptRunner._run_single_script`: import the module and call `main`.
An `ImportError` and any other exception are re-raised with a wrapping
message; a normal return passes the result through. -/
def run_single_script (script_id : String) (call : CallOutcome) :
    Except String (Option ScriptResult) :=
  match call with
  | .importError m => .error ("Failed to import script " ++ script_id ++ ": " ++ m)
  | .raises m => .error ("Script " ++ script_id ++ " execution failed: " ++ m)
  | .returns r => .ok r

/-- What one worker run observably does: the device-log entries actually
persisted (none are — every `db.write_simple_log` call raises), the
`logger.error` messages sent to the application log, the `time.sleep`
calls reached, the entry-point invocation counts, and the exception, if
any, escaping the `try` body into the thread (the `finally` cleanup having
run). -/
structure RunTrace where
  dbLogs : List String := []
  loggerErrors : List String := []
  sleeps : List Rat := []
  mainCalls : Nat := 0
  openCalls : Nat := 0
  uncaught : Option String := none
deriving Repr, DecidableEq

/-- The per-iteration progress log, line 106. -/
def loopMsg (t : String) (k n : Nat) : String :=
  "[" ++ t ++ "]: Loop [" ++ toString k ++ "/" ++ toString n ++ "]"

/-- The inter-loop delay log, line 122. -/
def waitMsg (t : String) (delay : Rat) : String :=
  "[" ++ t ++ "]: Waiting [" ++ toString delay ++ "s]"

/-- The terminal log, line 134; its count is always `max_loops`. -/
def completedMsg (t : String) (n : Nat) : String :=
  "[" ++ t ++ "]: Script completed successfully after " ++ toString n ++ " loop(s)"

/-- The `for loop_index in range(max_loops)` loop of
`_execute_script_with_loops` (lines 97-129), with the real raising log
sink.  `t` is the formatted current time, `did`/`sid` the device and
script ids, `n = max_loops`, `delay = loop_delay`; `entry i` is the
outcome of the main-script call at loop index `i`, and `stop c` is the
value returned by the `c`-th `context.should_stop()` call of the run.
The explicit arguments are the current loop index `i`, the remaining
iteration count `rem` (initially `n`), and the next stop-check index `c`.
Returns the persisted device logs, the `logger.error` messages, the sleeps
reached, the number of entry-point invocations, and how the loop ended:
`Except.ok c'` when the `for` statement finished (by `break` or
exhaustion) with `c'` the next stop-check index, `Except.error e` when an
exception escaped the loop to the outer `except`.  The per-iteration
`except` clause (lines 126-129) logs via `logger.error` and then calls the
sink again, which raises and escapes the loop; the code on the `.ok`
branches of the sink calls is unreachable under the real sink but is
translated for completeness. -/
def loopAux (t did sid : String) (n : Nat) (delay : Rat)
    (entry : Nat → CallOutcome) (stop : Nat → Bool) :
    Nat → Nat → Nat →
      List String × List String × List Rat × Nat × Except String Nat
  | _, 0, c => ([], [], [], 0, Except.ok c)
  | i, rem + 1, c =>
    if stop c then ([], [], [], 0, Except.ok (c + 1))
    else
      match write_simple_log did (loopMsg t (i + 1) n) with
      | .error e1 =>
        match write_simple_log did
            ("ERROR: " ++ ("Loop " ++ toString (i + 1) ++ " failed: " ++ e1)) with
        | .error e2 => ([], [loopFailErr (i + 1) e1], [], 0, Except.error e2)
        | .ok _ => ([], [loopFailErr (i + 1) e1], [], 0, Except.ok (c + 1))
      | .ok _ =>
        let lg := loopMsg t (i + 1) n
        match run_single_script sid (entry i) with
        | .error e =>
          match write_simple_log did
              ("ERROR: " ++ ("Loop " ++ toString (i + 1) ++ " failed: " ++ e)) with
          | .error e2 => ([lg], [loopFailErr (i + 1) e], [], 1, Except.error e2)
          | .ok _ =>
            ([lg, "ERROR: " ++ ("Loop " ++ toString (i + 1) ++ " failed: " ++ e)],
             [loopFailErr (i + 1) e], [], 1, Except.ok (c + 1))
        | .ok result =>
          let okField := match result with
            | none => false
            | some r => r.success.getD true
          if okField = false then
            let msg := match result with
              | none => "Script returned no result"
              | some r => r.message.getD "Script execution failed"
            match write_simple_log did ("ERROR: " ++ msg) with
            | .error e1 =>
              match write_simple_log did
                  ("ERROR: " ++ ("Loop " ++ toString (i + 1) ++ " failed: " ++ e1)) with
              | .error e2 => ([lg], [loopFailErr (i + 1) e1], [], 1, Except.error e2)
              | .ok _ =>
                ([lg, "ERROR: " ++ ("Loop " ++ toString (i + 1) ++ " failed: " ++ e1)],
                 [loopFailErr (i + 1) e1], [], 1, Except.ok (c + 1))
            | .ok _ => ([lg, "ERROR: " ++ msg], [], [], 1, Except.ok (c + 1))
          else
            if i < n - 1 ∧ 0 < delay then
              if stop (c + 1) then ([lg], [], [], 1, Except.ok (c + 2))
              else
                match write_simple_log did (waitMsg t delay) with
                | .error e1 =>
                  match write_simple_log did
                      ("ERROR: " ++ ("Loop " ++ toString (i + 1) ++ " failed: " ++ e1)) with
                  | .error e2 => ([lg], [loopFailErr (i + 1) e1], [], 1, Except.error e2)
                  | .ok _ =>
                    ([lg, "ERROR: " ++ ("Loop " ++ toString (i + 1) ++ " failed: " ++ e1)],
                     [loopFailErr (i + 1) e1], [], 1, Except.ok (c + 1))
                | .ok _ =>
                  let rest := loopAux t did sid n delay entry stop (i + 1) rem (c + 2)
                  (lg :: waitMsg t delay :: rest.1, rest.2.1,
                   delay :: rest.2.2.1, 1 + rest.2.2.2.1, rest.2.2.2.2)
            else
              let rest := loopAux t did sid n delay entry stop (i + 1) rem (c + 1)
              (lg :: rest.1, rest.2.1, rest.2.2.1, 1 + rest.2.2.2.1, rest.2.2.2.2)

/-- The `try` body of `_execute_script_with_loops` (lines 82-135) with the
real raising log sink: the open-game preamble, the main loop, and the
completion check.  When the open-game call raises, the inner `except`
(lines 91-94) logs via `logger.error` and then its own sink call raises,
escaping to the outer `except` (lines 137-139), whose sink call raises
again and escapes the body.  A loop that ends normally reaches line 131:
when the final `should_stop` check is `False` the completion-log sink call
raises and takes the same outer-`except` path; when it is `True` the body
returns cleanly. -/
def tryBody (t did sid : String) (g : GameOptions) (openCall : CallOutcome)
    (entry : Nat → CallOutcome) (stop : Nat → Bool) : RunTrace :=
  let n := g.max_loops.toNat
  let openPart : Sum RunTrace Nat :=
    if g.open_game then
      match run_single_script "open_game" openCall with
      | .error e =>
        match write_simple_log did ("ERROR: " ++ ("Open game failed: " ++ e)) with
        | .error e2 =>
          match write_simple_log did
              ("ERROR: " ++ ("Script execution failed: " ++ e2)) with
          | .error e3 =>
            Sum.inl { loggerErrors := ["Open game script failed: " ++ e,
                                       deviceFailErr did e2],
                      openCalls := 1, uncaught := some e3 }
          | .ok _ =>
            Sum.inl { dbLogs := ["ERROR: " ++ ("Script execution failed: " ++ e2)],
                      loggerErrors := ["Open game script failed: " ++ e,
                                       deviceFailErr did e2],
                      openCalls := 1 }
        | .ok _ =>
          Sum.inl { dbLogs := ["ERROR: " ++ ("Open game failed: " ++ e)],
                    loggerErrors := ["Open game script failed: " ++ e],
                    openCalls := 1 }
      | .ok _ =>
        if stop 0 then Sum.inl { openCalls := 1 } else Sum.inr 1
    else Sum.inr 0
  match openPart with
  | Sum.inl tr => tr
  | Sum.inr c0 =>
    let opened := if g.open_game then 1 else 0
    let r := loopAux t did sid n g.loop_delay entry stop 0 n c0
    match r.2.2.2.2 with
    | .error e =>
      match write_simple_log did ("ERROR: " ++ ("Script execution failed: " ++ e)) with
      | .error e2 =>
        { dbLogs := r.1, loggerErrors := r.2.1 ++ [deviceFailErr did e],
          sleeps := r.2.2.1, mainCalls := r.2.2.2.1, openCalls := opened,
          uncaught := some e2 }
      | .ok _ =>
        { dbLogs := r.1 ++ ["ERROR: " ++ ("Script execution failed: " ++ e)],
          loggerErrors := r.2.1 ++ [deviceFailErr did e],
          sleeps := r.2.2.1, mainCalls := r.2.2.2.1, openCalls := opened }
    | .ok cf =>
      if stop cf then
        { dbLogs := r.1, loggerErrors := r.2.1, sleeps := r.2.2.1,
          mainCalls := r.2.2.2.1, openCalls := opened }
      else
        match write_simple_log did (completedMsg t n) with
        | .error e =>
          match write_simple_log did
              ("ERROR: " ++ ("Script execution failed: " ++ e)) with
          | .error e2 =>
            { dbLogs := r.1, loggerErrors := r.2.1 ++ [deviceFailErr did e],
              sleeps := r.2.2.1, mainCalls := r.2.2.2.1, openCalls := opened,
              uncaught := some e2 }
          | .ok _ =>
            { dbLogs := r.1 ++ ["ERROR: " ++ ("Script execution failed: " ++ e)],
              loggerErrors := r.2.1 ++ [deviceFailErr did e],
              sleeps := r.2.2.1, mainCalls := r.2.2.2.1, openCalls := opened }
        | .ok _ =>
          { dbLogs := r.1 ++ [completedMsg t n], loggerErrors := r.2.1,
            sleeps := r.2.2.1, mainCalls := r.2.2.2.1, openCalls := opened }

/-- The `_running_contexts` / `_running_threads` maps of a `ScriptRunner`,
reduced to the device ids that hold an entry. -/
structure RunnerState where
  contexts : List String := []
  threads : List String := []
deriving Repr, DecidableEq

/-- `ScriptRunner._cleanup_device`: drop the context and thread entries for
the device and release it in the database via `stop_device_script`. -/
def cleanup_device (s : RunnerState) (reg : List DeviceRec) (device_id : String) :
    RunnerState × List DeviceRec :=
  (⟨s.contexts.filter (fun x => x ≠ device_id),
    s.threads.filter (fun x => x ≠ device_id)⟩,
   db_stop_device_script reg device_id)

/-- The whole worker body `_execute_script_with_loops`: the `try` body,
then the `finally` clause, which always runs `_cleanup_device` (the
service database's `stop_device_script` does exist and works).  When the
trace's `uncaught` field is set, that exception continues out of the
function into `Thread.run` after the cleanup — the worker thread dies, but
the handle and binding are already released. -/
def worker (t did sid : String) (g : GameOptions) (openCall : CallOutcome)
    (entry : Nat → CallOutcome) (stop : Nat → Bool)
    (s : RunnerState) (reg : List DeviceRec) :
    RunTrace × RunnerState × List DeviceRec :=
  let tr := tryBody t did sid g openCall entry stop
  let cln := cleanup_device s reg did
  (tr, cln.1, cln.2)

end ScriptRunner

namespace CoreExec

/-! ## Process-based executor (src/backend/src/core/executor.py)

Logs are the `action` strings passed to `db.write_log` (the database layer
prepends the timestamp).  Module loading is modelled as succeeding — a
loading failure raises and takes the same outer `except` path as a raising
entry point, which `CallOutcome.raises`/`CallOutcome.importError` already
cover at the call. -/

/-- The `for loop_index in range(max_loops)` loop of
`_execute_script_process` (lines 175-197).  Returns the logs and sleeps
emitted, the number of entry-point invocations, and either the value of
`loop_index` when the loop exits normally (used by the completion log), or
the message of the exception that escapes the loop. -/
def loopAux (n : Nat) (delay : Rat) (entry : Nat → CallOutcome) :
    Nat → Nat → List String × List Rat × Nat × Except String Nat
  | i, 0 => ([], [], 0, .ok (i - 1))
  | i, rem + 1 =>
    let lg := "Script loop iteration " ++ toString (i + 1) ++ "/" ++ toString n
    match entry i with
    | .importError m => ([lg], [], 1, .error m)
    | .raises m => ([lg], [], 1, .error m)
    | .returns result =>
      -- `if result and not result.get("success", True)`: a `None` result passes
      let okField := match result with
        | none => true
        | some r => r.success.getD true
      if okField = false then
        let msg := (result.bind (fun r => r.message)).getD "Unknown error"
        ([lg], [], 1,
         .error ("Script failed on loop " ++ toString (i + 1) ++ ": " ++ msg))
      else
        -- `if result and not result.get("continue_loop", True)`
        let contLoop := match result with
          | none => true
          | some r => r.continue_loop.getD true
        if contLoop = false then
          ([lg, "Script requested to stop looping at iteration " ++ toString (i + 1)],
           [], 1, .ok i)
        else
          let tail := loopAux n delay entry (i + 1) rem
          if i < n - 1 ∧ 0 < delay then
            (lg :: ("Waiting " ++ toString delay ++ "s before next loop...") :: tail.1,
             delay :: tail.2.1, 1 + tail.2.2.1, tail.2.2.2)
          else
            (lg :: tail.1, tail.2.1, 1 + tail.2.2.1, tail.2.2.2)

/-- Result of the `try` block of `_execute_script_process` (lines 121-207):
its logs, sleeps and call counts, and whether an exception escaped to the
`except` clause. -/
structure TryOut where
  logs : List String := []
  sleeps : List Rat := []
  mainCalls : Nat := 0
  openCalls : Nat := 0
  outcome : Except String Unit := .ok ()
deriving Repr

/-- The `try` block of `_execute_script_process` through the completion
log (lines 121-200): start logs, the optional open-game invocation (a
failure result raises `RuntimeError`, line 158), loading logs, the main
loop, and the completion log using `loop_index + 1` (line 200).  The
line-203 release attempt needs the registry and is modeled in `worker`
below. -/
def tryBody (sid : String) (g : GameOptions) (openCall : CallOutcome)
    (entry : Nat → CallOutcome) : TryOut :=
  let n := g.max_loops.toNat
  let pre := ["Script execution started: " ++ sid,
              "Script will run " ++ toString n ++ " loop(s) with "
                ++ toString g.loop_delay ++ "s delay"]
  let openStep : List String × Nat × Except String Unit :=
    if g.open_game then
      let before := ["Running open-game script...", "Open-game script loaded, executing..."]
      match openCall with
      | .importError m => (before, 1, .error m)
      | .raises m => (before, 1, .error m)
      | .returns result =>
        let okField := match result with
          | none => true
          | some r => r.success.getD true
        if okField = false then
          let msg := (result.bind (fun r => r.message)).getD "Unknown error"
          (before, 1, .error ("Open-game script failed: " ++ msg))
        else
          (before ++ ["Open-game script completed successfully"], 1, .ok ())
    else ([], 0, .ok ())
  match openStep.2.2 with
  | .error e =>
    { logs := pre ++ openStep.1, openCalls := openStep.2.1, outcome := .error e }
  | .ok _ =>
    let loadLogs := ["Loading script " ++ sid ++ "...",
                     "Script " ++ sid ++ " loaded successfully"]
    let r := loopAux n g.loop_delay entry 0 n
    match r.2.2.2 with
    | .error e =>
      { logs := pre ++ openStep.1 ++ loadLogs ++ r.1, sleeps := r.2.1,
        mainCalls := r.2.2.1, openCalls := openStep.2.1, outcome := .error e }
    | .ok last =>
      { logs := pre ++ openStep.1 ++ loadLogs ++ r.1
          ++ ["Script " ++ sid ++ " completed successfully after "
              ++ toString (last + 1) ++ " loop(s)"],
        sleeps := r.2.1, mainCalls := r.2.2.1, openCalls := openStep.2.1,
        outcome := .ok () }

/-- What a finished worker process leaves behind: its logs, sleeps, call
counts, the resulting registry, and the remaining worker-handle keys of
`_running_scripts`. -/
structure WorkerOut where
  logs : List String
  sleeps : List Rat
  mainCalls : Nat
  openCalls : Nat
  reg : List DeviceRec
  handles : List String
deriving Repr, DecidableEq

/-- The core `Database.stop_device_script` (core/database.py lines
191-199): for a device whose record holds a `current_script`, the function
assigns `device.device_running_id`, a field the pydantic `Device` model
does not declare, so pydantic raises a `ValueError` *before*
`save_device`; for an unknown or unbound device the guard fails and
nothing happens.  The registry is therefore never modified by this
function.  (The service-layer variant `db_stop_device_script` above is the
one that performs the release correctly.) -/
def core_stop_device_script (reg : List DeviceRec) (device_id : String) :
    Except String (List DeviceRec) :=
  match db_get_device reg device_id with
  | some d =>
    if d.current_script.isSome then
      Except.error "ValueError: Device object has no field device_running_id"
    else Except.ok reg
  | none => Except.ok reg

/-- The whole of `_execute_script_process`: the `try` block through the
completion log (`tryBody`), then the line-203 release attempt — which
raises for any bound device —, the `except` clause (lines 209-215: it logs
the error twice, once directly at line 214 and once via
`_handle_script_error`, whose own release attempt is wrapped in a bare
`except` that swallows the raise), and the `finally` clause, which always
removes the worker handle.  No exception escapes the worker, but no path
ever clears a bound device's registry record. -/
def worker (did sid : String) (g : GameOptions) (openCall : CallOutcome)
    (entry : Nat → CallOutcome) (reg : List DeviceRec) (handles : List String) :
    WorkerOut :=
  let b := tryBody sid g openCall entry
  let afterTry : Except String (List DeviceRec) :=
    match b.outcome with
    | .ok _ => core_stop_device_script reg did
    | .error e => .error e
  match afterTry with
  | .ok reg2 =>
    { logs := b.logs, sleeps := b.sleeps, mainCalls := b.mainCalls,
      openCalls := b.openCalls, reg := reg2,
      handles := handles.filter (fun x => x ≠ did) }
  | .error e =>
    let reg2 := match core_stop_device_script reg did with
      | .ok r => r
      | .error _ => reg
    { logs := b.logs ++ ["ERROR: " ++ ("Script execution failed: " ++ e),
                         "ERROR: " ++ ("Script execution failed: " ++ e)],
      sleeps := b.sleeps, mainCalls := b.mainCalls, openCalls := b.openCalls,
      reg := reg2, handles := handles.filter (fun x => x ≠ did) }

end CoreExec

namespace SvcExec

/-! ## Subprocess executor (src/backend/src/service/executor.py) -/

/-- A subprocess handle: whether `poll()` currently reports it alive, and
whether it exits within the `wait` timeout after `terminate()`. -/
structure Proc where
  alive : Bool
  diesOnTerminate : Bool := true
deriving Repr, DecidableEq

/-- The `_running_scripts` dict: device id to subprocess handle. -/
abbrev SvcState := List (String × Proc)

/-- `Executor._cleanup_device`: remove the device's entry, if any. -/
def cleanup_device (st : SvcState) (did : String) : SvcState :=
  st.filter (fun p => p.1 ≠ did)

/-- `Executor.is_running` (lines 111-122): look up the handle; a dead
handle is cleaned up as a side effect before returning `false`. -/
def is_running (st : SvcState) (did : String) : Bool × SvcState :=
  match dictGet st did with
  | none => (false, st)
  | some proc => if proc.alive then (true, st) else (false, cleanup_device st did)

/-- `Executor.run` (lines 23-79).  `scriptExists` models
`script_manager.get_script_path` returning a path; `proc` is the spawned
subprocess and `outLines` its output lines.  When the device is already
running, the method logs a warning and returns — no exception, no new
worker, no other change.  Otherwise it writes the "Script started" log
(`db.write_log` exists and works), records the handle, and calls
`_monitor_output` *synchronously* (line 64 is a direct call, despite the
"fire and forget" comment): the monitor forwards each output line to the
nonexistent `db.write_simple_log`, so the first line raises
`AttributeError` out of `run`, while a process with no output ends the
read loop at EOF and `_cleanup_device` removes the handle before `run`
returns.  (On the raising path the handle stays recorded; the `Except`
value does not carry that state, and no theorem below depends on it.) -/
def run (st : SvcState) (did sid : String) (scriptExists : Bool) (proc : Proc)
    (outLines : List String := []) : Except String (SvcState × List String) :=
  let ir := is_running st did
  if ir.1 then .ok (ir.2, [])
  else if scriptExists = false then .error ("Script " ++ sid ++ " not found")
  else
    match outLines with
    | [] => .ok (cleanup_device (ir.2 ++ [(did, proc)]) did, ["Script started"])
    | _ :: _ => .error ScriptRunner.attrError

/-- `Executor.stop` (lines 81-109): always release the device in the
database first; with no handle, or a dead handle, return `True`; otherwise
terminate and wait.  If the process ignores `terminate()` past the wait
timeout, `process.wait(timeout=timeout)` raises `TimeoutExpired`, which the
method does not catch (so the `kill()` fallback at lines 103-105 is
unreachable: a normal `wait` return means `poll()` is no longer `None`). -/
def stop (st : SvcState) (reg : List DeviceRec) (did : String) :
    Except String (Bool × SvcState × List DeviceRec) :=
  let reg := db_stop_device_script reg did
  match dictGet st did with
  | none => .ok (true, st, reg)
  | some proc =>
    if proc.alive = false then .ok (true, cleanup_device st did, reg)
    else if proc.diesOnTerminate then .ok (true, cleanup_device st did, reg)
    else .error "TimeoutExpired"

end SvcExec

namespace ExecMgr

/-! ## ExecutionManager (src/apps/server/src/libs/execution_manager.py) -/

/-- Device state as the apps/server `DeviceManager` holds it (the fields
`start_script` / `stop_script` touch). -/
structure MDevice where
  status : String := "available"
  current_script : Option String := none
  current_script_name : Option String := none
  current_execution_id : Option String := none
  game_options : Option GameOptions := none
deriving Repr, DecidableEq

/-- `ExecutionManager` state: the device map and `_running_scripts`
(execution id to owning device id; the subprocess itself is abstracted to
whether it terminates within the `wait` timeout, passed to `stop_script`). -/
structure MState where
  devices : List (String × MDevice) := []
  running_scripts : List (String × String) := []
deriving Repr, DecidableEq

/-- Mutating a device object held in the manager's map. -/
def setDevice (ds : List (String × MDevice)) (id : String) (d : MDevice) :
    List (String × MDevice) :=
  ds.map (fun p => if p.1 == id then (p.1, d) else p)

/-- `ExecutionManager.start_script` (lines 22-90): `ValueError` when the
device is unknown or not `available`; otherwise spawn the subprocess, mark
the device busy, bind script id, name and options, and register the
running-script handle under a fresh `execution_id`. -/
def start_script (st : MState) (device_id script_id : String)
    (script_name : Option String) (game_options : Option GameOptions)
    (execution_id : String) : Except String MState :=
  match dictGet st.devices device_id with
  | none => .error "Device not found"
  | some dev =>
    if dev.status ≠ "available" then .error "Device is busy"
    else
      let d := { dev with
                   status := "busy",
                   current_script := some script_id,
                   current_script_name := script_name,
                   game_options := game_options,
                   current_execution_id := some execution_id }
      .ok { devices := setDevice st.devices device_id d,
            running_scripts := st.running_scripts ++ [(execution_id, device_id)] }

/-- `ExecutionManager.stop_script` (lines 92-124): raises
`ValueError("Execution not found")` when the execution id has no entry;
otherwise terminates the process (`process.wait(timeout=5)` re-raises a
`TimeoutExpired` through the bare `except`), clears the owning device's
binding, and removes the handle. -/
def stop_script (st : MState) (execution_id : String) (terminates : Bool) :
    Except String MState :=
  match dictGet st.running_scripts execution_id with
  | none => .error "Execution not found"
  | some owner_id =>
    if terminates = false then .error "TimeoutExpired"
    else
      match dictGet st.devices owner_id with
      | none => .error "AttributeError: NoneType"
      | some dev =>
        let d := { dev with
                     status := "available",
                     current_script := none,
                     current_script_name := none,
                     current_execution_id := none,
                     game_options := none }
        .ok { devices := setDevice st.devices owner_id d,
              running_scripts := st.running_scripts.filter
                (fun q => q.1 ≠ execution_id) }

end ExecMgr

namespace DevApi

/-! ## Presence refresh via GET /api/devices (src/backend/src/api/devices.py) -/

/-- How one connected device's record is refreshed (lines 78-110): an
existing record keeps `running` while a script is bound and is otherwise
set `available`; `last_seen` is stamped; the screen size is updated when
`adb.get_screen_size` succeeds (`screen did = none` models it raising).
An unknown device gets a fresh `available` record. -/
def refreshDevice (existing : List DeviceRec) (t : String)
    (screen : String → Option (Int × Int)) (did : String) : DeviceRec :=
  match db_get_device existing did with
  | some device =>
    let device :=
      if device.current_script.isNone then { device with device_status := "available" }
      else device
    let device := { device with last_seen := some t }
    match screen did with
    | some s => { device with screen_size := some s }
    | none => device
  | none =>
    { id := did, device_name := "Device " ++ did, device_status := "available",
      screen_size := screen did, last_seen := some t }

/-- One full pass of `GET /api/devices` (lines 58-140): build the
refreshed records for every ADB-connected device, then persist.  The
endpoint's `db` is the *core* `Database`, which defines neither
`remove_devices` nor `clean_device_logs`.  When some persisted device is
absent from ADB, the `db.remove_devices` call (line 123) raises
`AttributeError` *before* any save, leaving the persisted registry
untouched; otherwise every refreshed record is saved (lines 127-128,
`save_device` exists and works) and the unconditional
`db.clean_device_logs` call (line 132) raises *after* persistence.  In
either case the endpoint's `except` turns the raise into an HTTP 500; this
function returns the registry as persisted after the pass. -/
def refreshPass (connected : List String) (existing : List DeviceRec) (t : String)
    (screen : String → Option (Int × Int)) : List DeviceRec :=
  let devices_to_save := connected.map (refreshDevice existing t screen)
  let devices_to_remove := existing.filter (fun d => ¬ connected.contains d.id)
  if devices_to_remove.isEmpty then devices_to_save.foldl db_save_device existing
  else existing

end DevApi

namespace DevMgr

/-! ## Discovery thread (src/backend/src/libs/device_manager.py)

The `Device` class this variant instantiates ships outside `src/`; a fresh
`Device(serial)` is modelled from the spec (created on first discovery,
`available`, no binding).  Existing records are exactly the fields the
discovery loop assigns. -/

/-- Device state as the thread-based `DeviceManager` holds it. -/
structure MDevice where
  name : String
  status : String := "available"
  last_seen : String := ""
  current_script : Option String := none
  current_execution_id : Option String := none
  screen_size : Option (Int × Int) := none
deriving Repr, DecidableEq

/-- Mutating a device held in `self.devices`. -/
def setDevice (ds : List (String × MDevice)) (id : String) (d : MDevice) :
    List (String × MDevice) :=
  ds.map (fun p => if p.1 == id then (p.1, d) else p)

/-- How one already-known, currently-connected device is refreshed by the
discovery loop (lines 97-107): stamp `last_seen`, bring an `offline` device
back to `available`, and fill a missing screen size.  The current-script
binding is never assigned. -/
def refreshKnown (d : MDevice) (now : String) (ss : Option (Int × Int)) : MDevice :=
  let d := { d with last_seen := now }
  let d := if d.status == "offline" then { d with status := "available" } else d
  if d.screen_size.isNone then { d with screen_size := ss } else d

/-- One cycle of the discovery loop (lines 77-121): add newly seen serials,
refresh known ones via `refreshKnown`, and mark devices absent from the
feed `offline`. -/
def discoveryCycle (devices : List (String × MDevice)) (current_serials : List String)
    (now : String) (screen : String → Option (Int × Int)) :
    List (String × MDevice) :=
  let step := fun (ds : List (String × MDevice)) (serial : String) =>
    match dictGet ds serial with
    | none =>
      ds ++ [(serial, { name := "Device " ++ serial, status := "available",
                        last_seen := now, screen_size := screen serial })]
    | some d => setDevice ds serial (refreshKnown d now (screen serial))
  let ds := current_serials.foldl step devices
  ds.map (fun p =>
    if current_serials.contains p.1 then p
    else if p.2.status ≠ "offline" then (p.1, { p.2 with status := "offline" })
    else p)

end DevMgr

namespace ExecuteApi

/-! ## HTTP start endpoint (src/backend/src/api/execute.py) -/

/-- Option normalisation in `POST /api/execute/start` (lines 28-30): the
request's options (or defaults) with `max_loops` and `loop_delay`
overwritten by the hardcoded values. -/
def normalizeOptions (request_options : Option GameOptions) : GameOptions :=
  let g := request_options.getD {}
  { g with max_loops := 1000, loop_delay := 1 }

/-- Everything the start endpoint produces: the started and failed device
lists, the updated registry, and the `executor.run` background tasks it
enqueued, each carrying the options actually passed on. -/
structure StartOutcome where
  started : List String := []
  failed : List String := []
  reg : List DeviceRec := []
  tasks : List (String × String × GameOptions) := []
deriving Repr, DecidableEq

/-- The per-device body of the endpoint's loop (lines 35-56). -/
def startStep (script_id : String) (g : GameOptions) (acc : StartOutcome)
    (did : String) : StartOutcome :=
  match db_get_device acc.reg did with
  | none => { acc with failed := acc.failed ++ [did] }
  | some device =>
    if device.device_status ≠ "available" ∨ device.current_script.isSome then
      { acc with failed := acc.failed ++ [did] }
    else
      { acc with reg := db_set_device_script acc.reg did script_id (some g),
                 tasks := acc.tasks ++ [(did, script_id, g)],
                 started := acc.started ++ [did] }

/-- `POST /api/execute/start` (lines 18-73): 400 on an empty device list;
for each device, bind and enqueue `executor.run` when it exists, is
`available` and has no current script, else record it as failed; 400 when
nothing started. -/
def start_script (reg : List DeviceRec) (device_ids : List String)
    (script_id : String) (request_options : Option GameOptions) :
    Except String StartOutcome :=
  if device_ids.isEmpty then .error "No devices specified"
  else
    let g := normalizeOptions request_options
    let out := device_ids.foldl (startStep script_id g) { reg := reg }
    if out.started.isEmpty then .error "Failed to start script on any device"
    else .ok out

end ExecuteApi

namespace ScriptCore

/-! ## Sliced sleep helper (src/backend/src/scripts/_core.py) -/

/-- The slicing loop of `Core.sleep` for `seconds > 1` (lines 66-77): the
list of individual `time.sleep` durations.  `isStop k` is the `_is_stop()`
value at the `k`-th check; a `true` check breaks out before sleeping.
`fuel` bounds the recursion; `coreSleep` supplies enough fuel for the loop
to run to completion. -/
def sleepSlicesAux (isStop : Nat → Bool) : Rat → Nat → Nat → List Rat
  | _, _, 0 => []
  | remaining, k, fuel + 1 =>
    if 0 < remaining then
      if isStop k then []
      else
        let s := min (1/2 : Rat) remaining
        s :: sleepSlicesAux isStop (remaining - s) (k + 1) fuel
    else []

/-- `Core.sleep` (lines 57-77): nonpositive durations do not sleep,
durations of at most 1 s are a single plain `time.sleep`, and longer
durations are sliced at 0.5 s granularity with a stop check before each
slice. -/
def coreSleep (isStop : Nat → Bool) (seconds : Rat) : List Rat :=
  if seconds ≤ 0 then []
  else if seconds ≤ 1 then [seconds]
  else sleepSlicesAux isStop seconds 0 (2 * seconds).ceil.toNat

end ScriptCore

/-! ## Registry lemmas -/

theorem db_get_device_save_self (reg : List DeviceRec) (d : DeviceRec) :
    db_get_device (db_save_device reg d) d.id = some d := by
  induction reg with
  | nil => simp [db_save_device, db_get_device]
  | cons x xs ih =>
    unfold db_save_device
    by_cases h : x.id == d.id
    · simp [h, db_get_device]
    · simp [h, db_get_device, ih]

theorem db_get_device_save_other (reg : List DeviceRec) (d : DeviceRec)
    (x : String) (hx : (d.id == x) = false) :
    db_get_device (db_save_device reg d) x = db_get_device reg x := by
  induction reg with
  | nil => simp [db_save_device, db_get_device, hx]
  | cons y ys ih =>
    unfold db_save_device
    by_cases h : y.id == d.id
    · have hyx : (y.id == x) = false := by
        have h1 := eq_of_beq h
        rw [beq_eq_false_iff_ne] at hx ⊢
        rw [h1]; exact hx
      simp [h, db_get_device, hx, hyx]
    · simp [h, db_get_device, ih]

theorem db_get_device_some_id (reg : List DeviceRec) (did : String)
    (d : DeviceRec) (h : db_get_device reg did = some d) : d.id = did := by
  induction reg with
  | nil => cases h
  | cons x xs ih =>
    unfold db_get_device at h
    by_cases hx : x.id == did
    · rw [if_pos hx] at h
      cases h
      exact eq_of_beq hx
    · rw [if_neg (by simp [hx])] at h
      exact ih h

/-- Releasing a bound device yields a record that is `available` with no
script and no options. -/
theorem db_stop_clears (reg : List DeviceRec) (did : String) (d0 : DeviceRec)
    (h : db_get_device reg did = some d0) (hb : d0.current_script.isSome = true) :
    db_get_device (db_stop_device_script reg did) did =
      some { d0 with current_script := none, game_options := none,
                     device_status := "available" } := by
  unfold db_stop_device_script
  rw [h]
  simp only [hb, if_true]
  have hid := db_get_device_some_id reg did d0 h
  have := db_get_device_save_self reg
    { d0 with current_script := none, game_options := none,
              device_status := "available" }
  simpa [hid] using this

/-- Releasing a device whose record holds no script is a no-op. -/
theorem db_stop_noop (reg : List DeviceRec) (did : String)
    (h : ∀ d, db_get_device reg did = some d → d.current_script = none) :
    db_stop_device_script reg did = reg := by
  unfold db_stop_device_script
  rcases hg : db_get_device reg did with _ | d
  · rfl
  · simp [h d hg]

/-- `stop_device_script` is idempotent. -/
theorem db_stop_idem (reg : List DeviceRec) (did : String) :
    db_stop_device_script (db_stop_device_script reg did) did =
      db_stop_device_script reg did := by
  rcases hg : db_get_device reg did with _ | d0
  · rw [db_stop_noop reg did (fun d hd => by rw [hg] at hd; cases hd)]
    rw [db_stop_noop reg did (fun d hd => by rw [hg] at hd; cases hd)]
  · by_cases hb : d0.current_script.isSome
    · have hc := db_stop_clears reg did d0 hg hb
      exact db_stop_noop _ did (fun d hd => by
        rw [hc] at hd
        cases hd
        rfl)
    · have hnoop : db_stop_device_script reg did = reg := by
        apply db_stop_noop
        intro d hd
        rw [hg] at hd
        cases hd
        simpa using hb
      rw [hnoop, hnoop]

/-! ## C8: run-option validation -/

theorem construct_isOk_iff (og oc si : Bool) (ml : Int) (ld gw : Rat) :
    (GameOptions.construct og oc si ml ld gw).isOk ↔
      (1 ≤ ml ∧ ml ≤ 1000 ∧ 0 ≤ ld ∧ 0 ≤ gw) := by
  unfold GameOptions.construct validate_max_loops validate_delays
  simp only [bind, Except.bind]
  split_ifs with h1 h2 h3 h4 <;>
    simp [Except.isOk, Except.toBool, pure, Except.pure] <;>
    intros <;>
    first
      | omega
      | linarith
      | exact ⟨by omega, by omega, by linarith, by linarith⟩

theorem construct_ok_eq (og oc si : Bool) (ml : Int) (ld gw : Rat) :
    ∀ g, GameOptions.construct og oc si ml ld gw = Except.ok g →
      g = { open_game := og, open_chest := oc, sell_items := si,
            max_loops := ml, loop_delay := ld, game_load_wait := gw } := by
  unfold GameOptions.construct validate_max_loops validate_delays
  simp only [bind, Except.bind]
  split_ifs <;> intro g h <;> simp [pure, Except.pure] at h <;> simp [h]

/-- C8: `GameOptions` construction succeeds exactly when `max_loops` lies in
1..1000 and both delays are non-negative; out-of-range values raise a
validation error at construction time, and accepted values are stored
unchanged — never clamped or adjusted. -/
theorem gameOptions_validatesNotClamps (og oc si : Bool) (ml : Int) (ld gw : Rat) :
    ((GameOptions.construct og oc si ml ld gw).isOk ↔
      (1 ≤ ml ∧ ml ≤ 1000 ∧ 0 ≤ ld ∧ 0 ≤ gw)) ∧
    (∀ g, GameOptions.construct og oc si ml ld gw = Except.ok g →
      g = { open_game := og, open_chest := oc, sell_items := si,
            max_loops := ml, loop_delay := ld, game_load_wait := gw }) :=
  ⟨construct_isOk_iff og oc si ml ld gw, construct_ok_eq og oc si ml ld gw⟩

/-- Witness for `gameOptions_validatesNotClamps` at `max_loops = 5`,
`loop_delay = 0`, `game_load_wait = 0`. -/
theorem gameOptions_validatesNotClamps_witness :
    GameOptions.construct true false false 5 0 0 =
      Except.ok { open_game := true, open_chest := false, sell_items := false,
                  max_loops := 5, loop_delay := 0, game_load_wait := 0 } ∧
    ({ open_game := true, open_chest := false, sell_items := false,
       max_loops := 5, loop_delay := 0, game_load_wait := 0 } : GameOptions) =
      { open_game := true, open_chest := false, sell_items := false,
        max_loops := 5, loop_delay := 0, game_load_wait := 0 } :=
  ⟨by rfl, (gameOptions_validatesNotClamps true false false 5 0 0).2 _ (by rfl)⟩

/-! ## C10: the start endpoint hardcodes loop options -/

theorem normalizeOptions_fields (ro : Option GameOptions) :
    (ExecuteApi.normalizeOptions ro).max_loops = 1000 ∧
    (ExecuteApi.normalizeOptions ro).loop_delay = 1 :=
  ⟨rfl, rfl⟩

theorem startStep_tasks_cases (script_id : String) (g : GameOptions)
    (acc : ExecuteApi.StartOutcome) (did : String) :
    (ExecuteApi.startStep script_id g acc did).tasks = acc.tasks ∨
    (ExecuteApi.startStep script_id g acc did).tasks =
      acc.tasks ++ [(did, script_id, g)] := by
  unfold ExecuteApi.startStep
  cases hdev : db_get_device acc.reg did with
  | none => left; rfl
  | some dev =>
    by_cases h : dev.device_status ≠ "available" ∨ dev.current_script.isSome
    · left; simp [h]
    · right; simp [h]

theorem start_foldl_tasks_opts (script_id : String) (g : GameOptions)
    (l : List String) (acc : ExecuteApi.StartOutcome)
    (h : ∀ x ∈ acc.tasks, x.2.2 = g) :
    ∀ x ∈ (l.foldl (ExecuteApi.startStep script_id g) acc).tasks, x.2.2 = g := by
  induction l generalizing acc with
  | nil => simpa using h
  | cons a rest ih =>
    simp only [List.foldl_cons]
    apply ih
    intro x hx
    rcases startStep_tasks_cases script_id g acc a with hc | hc <;> rw [hc] at hx
    · exact h x hx
    · rcases List.mem_append.1 hx with h1 | h1
      · exact h x h1
      · simp only [List.mem_singleton] at h1
        simp [h1]

/-- C10: every `executor.run` task enqueued by an accepted call of the start
endpoint carries options with `max_loops = 1000` and `loop_delay = 1.0`,
regardless of the loop settings the caller supplied. -/
theorem startEndpoint_hardcodesLoopOptions (reg : List DeviceRec)
    (device_ids : List String) (script_id : String)
    (request_options : Option GameOptions) (out : ExecuteApi.StartOutcome)
    (hout : ExecuteApi.start_script reg device_ids script_id request_options =
      Except.ok out) :
    ∀ task ∈ out.tasks, task.2.2.max_loops = 1000 ∧ task.2.2.loop_delay = 1 := by
  unfold ExecuteApi.start_script at hout
  by_cases he : device_ids.isEmpty
  · simp [he] at hout
  · simp only [he, Bool.false_eq_true, if_false] at hout
    split at hout
    · cases hout
    · injection hout with hh
      subst hh
      intro task htask
      have hval := start_foldl_tasks_opts script_id
        (ExecuteApi.normalizeOptions request_options) device_ids { reg := reg }
        (by simp) task htask
      rw [hval]
      exact normalizeOptions_fields request_options

/-- Witness for `startEndpoint_hardcodesLoopOptions`: a request asking for
`max_loops = 3`, `loop_delay = 0` still enqueues `1000` / `1.0`. -/
theorem startEndpoint_hardcodesLoopOptions_witness :
    ExecuteApi.start_script
        [{ id := "dev-1", device_name := "Device dev-1" }] ["dev-1"] "s1"
        (some { max_loops := 3, loop_delay := 0 }) =
      Except.ok
        { started := ["dev-1"], failed := [],
          reg := [{ id := "dev-1", device_name := "Device dev-1",
                    device_status := "running", current_script := some "s1",
                    game_options := some { max_loops := 1000, loop_delay := 1 } }],
          tasks := [("dev-1", "s1", { max_loops := 1000, loop_delay := 1 })] } ∧
    ∀ task ∈ ({ started := ["dev-1"], failed := [],
                reg := [{ id := "dev-1", device_name := "Device dev-1",
                          device_status := "running", current_script := some "s1",
                          game_options := some { max_loops := 1000, loop_delay := 1 } }],
                tasks := [("dev-1", "s1", { max_loops := 1000, loop_delay := 1 })] }
              : ExecuteApi.StartOutcome).tasks,
      task.2.2.max_loops = 1000 ∧ task.2.2.loop_delay = 1 :=
  ⟨by rfl,
   startEndpoint_hardcodesLoopOptions
     [{ id := "dev-1", device_name := "Device dev-1" }] ["dev-1"] "s1"
     (some { max_loops := 3, loop_delay := 0 }) _ (by rfl)⟩

/-! ## C2: starting on a busy device -/

/-- Counterexample to C2 as stated: the backend `Executor.run`, called for
a device whose worker is alive, does not fail with a busy-device error — it
logs a warning and returns normally, with the worker map unchanged. -/
theorem startBusy_counterexample :
    SvcExec.run [("dev-1", { alive := true })] "dev-1" "s2" true { alive := true } =
      Except.ok ([("dev-1", { alive := true })], []) := by rfl

/-- C2 amended: starting on a busy device creates no worker and performs no
state mutation; `ExecutionManager.start_script` fails synchronously with
`ValueError("Device is busy")` while the backend `Executor.run` logs a
warning and returns without raising.  Either way no second worker or second
binding can come into existence. -/
theorem startBusy_noWorker_noMutation :
    (∀ (st : ExecMgr.MState) device_id script_id script_name gopts eid dev,
       dictGet st.devices device_id = some dev →
       dev.status ≠ "available" →
       ExecMgr.start_script st device_id script_id script_name gopts eid =
         Except.error "Device is busy") ∧
    (∀ (st : SvcExec.SvcState) did sid ok proc p,
       dictGet st did = some p → p.alive = true →
       SvcExec.run st did sid ok proc = Except.ok (st, [])) := by
  constructor
  · intro st device_id script_id script_name gopts eid dev hdev hbusy
    unfold ExecMgr.start_script
    rw [hdev]
    simp [hbusy]
  · intro st did sid ok proc p hp halive
    unfold SvcExec.run SvcExec.is_running
    rw [hp]
    simp [halive]

/-- Witness for `startBusy_noWorkerNoMutation` on one busy device in each
variant. -/
theorem startBusy_noWorker_noMutation_witness :
    ExecMgr.start_script { devices := [("dev-1", { status := "busy" })] }
        "dev-1" "s2" none none "e9" = Except.error "Device is busy" ∧
    SvcExec.run [("dev-2", { alive := true })] "dev-2" "s2" true { alive := true } =
      Except.ok ([("dev-2", { alive := true })], []) :=
  ⟨startBusy_noWorker_noMutation.1 { devices := [("dev-1", { status := "busy" })] }
     "dev-1" "s2" none none "e9" { status := "busy" } (by rfl) (by decide),
   startBusy_noWorker_noMutation.2 [("dev-2", { alive := true })] "dev-2" "s2"
     true { alive := true } { alive := true } (by rfl) (by rfl)⟩

/-! ## C5: idempotent stop -/

theorem dictGet_filter_self {α : Type} (l : List (String × α)) (k : String) :
    dictGet (l.filter (fun p => p.1 ≠ k)) k = none := by
  induction l with
  | nil => rfl
  | cons a rest ih =>
    by_cases h : a.1 = k
    · rw [List.filter_cons_of_neg (by simp [h])]
      exact ih
    · rw [List.filter_cons_of_pos (by simp [h])]
      simp only [dictGet]
      rw [if_neg (by simp [h])]
      exact ih

/-- Counterexample to C5 as stated: `ExecutionManager.stop_script` is not
idempotent — after a successful stop, stopping the same execution again
raises `ValueError("Execution not found")` instead of succeeding. -/
theorem stopTwice_raises_counterexample :
    ExecMgr.stop_script
        { devices := [("dev-1", { status := "busy", current_script := some "s1",
                                  current_execution_id := some "e1" })],
          running_scripts := [("e1", "dev-1")] } "e1" true =
      Except.ok { devices := [("dev-1", { status := "available" })],
                  running_scripts := [] } ∧
    ExecMgr.stop_script
        { devices := [("dev-1", { status := "available" })],
          running_scripts := [] } "e1" true =
      Except.error "Execution not found" :=
  ⟨by rfl, by rfl⟩

/-- C5 amended: the backend `Executor.stop` is idempotent and total over
device ids — with no active worker it is a no-op that returns success (only
the already-idempotent database release runs), and after any successful
stop a second stop returns success and changes nothing; the
`ExecutionManager` variant, by contrast, raises on an execution id with no
live entry, so there `stop; stop` errors on the second call. -/
theorem svcStop_idempotent :
    (∀ (st : SvcExec.SvcState) reg did, dictGet st did = none →
       SvcExec.stop st reg did =
         Except.ok (true, st, db_stop_device_script reg did)) ∧
    (∀ (st : SvcExec.SvcState) reg did b st' reg',
       SvcExec.stop st reg did = Except.ok (b, st', reg') →
       SvcExec.stop st' reg' did = Except.ok (true, st', reg')) := by
  constructor
  · intro st reg did h
    unfold SvcExec.stop
    rw [h]
  · intro st reg did b st' reg' h
    unfold SvcExec.stop at h
    cases hg : dictGet st did with
    | none =>
      rw [hg] at h
      injection h with h
      cases h
      unfold SvcExec.stop
      rw [hg, db_stop_idem]
    | some proc =>
      rw [hg] at h
      by_cases ha : proc.alive = false
      · simp only [ha, if_true] at h
        injection h with h
        cases h
        unfold SvcExec.stop SvcExec.cleanup_device
        rw [dictGet_filter_self, db_stop_idem]
      · simp only [ha, if_false] at h
        by_cases hd : proc.diesOnTerminate
        · simp only [hd, if_true] at h
          injection h with h
          cases h
          unfold SvcExec.stop SvcExec.cleanup_device
          rw [dictGet_filter_self, db_stop_idem]
        · simp only [hd, if_false] at h
          cases h

/-- Witness for `svcStop_idempotent`: stopping a running device succeeds
and a second stop succeeds with nothing left to change. -/
theorem svcStop_idempotent_witness :
    SvcExec.stop [("dev-1", { alive := true })]
        [{ id := "dev-1", device_name := "Device dev-1",
           device_status := "running", current_script := some "s1" }] "dev-1" =
      Except.ok (true, [],
        [{ id := "dev-1", device_name := "Device dev-1",
           device_status := "available" }]) ∧
    SvcExec.stop []
        [{ id := "dev-1", device_name := "Device dev-1",
           device_status := "available" }] "dev-1" =
      Except.ok (true, [],
        [{ id := "dev-1", device_name := "Device dev-1",
           device_status := "available" }]) :=
  ⟨by rfl,
   svcStop_idempotent.2 [("dev-1", { alive := true })]
     [{ id := "dev-1", device_name := "Device dev-1",
        device_status := "running", current_script := some "s1" }] "dev-1"
     true []
     [{ id := "dev-1", device_name := "Device dev-1",
        device_status := "available" }] (by rfl)⟩

/-! ## C4: stale-binding recovery -/

/-- Counterexample to C4: simulate a restart — a persisted record marked
`running` with a bound script, and (necessarily) no live worker.  The
presence-refresh pass keeps the device `running` with its binding; no
reconciliation to `available` takes place at startup. -/
theorem staleBinding_counterexample :
    DevApi.refreshPass ["dev-1"]
        [{ id := "dev-1", device_name := "Device dev-1",
           device_status := "running", current_script := some "s1" }] "T"
        (fun _ => none) =
      [{ id := "dev-1", device_name := "Device dev-1",
         device_status := "running", last_seen := some "T",
         current_script := some "s1" }] ∧
    ("running" : String) ≠ "available" :=
  ⟨by rfl, by decide⟩

/-- C4 amended: the refresh pass reconciles a persisted `running` device
back to `available` only when its record holds no bound script; a record
with a bound `current_script` keeps its status and binding even though no
worker is alive. -/
theorem refresh_reconciliation_unboundOnly :
    (∀ existing t screen did d, db_get_device existing did = some d →
       d.current_script = none →
       (DevApi.refreshDevice existing t screen did).device_status = "available") ∧
    (∀ existing t screen did d s, db_get_device existing did = some d →
       d.current_script = some s →
       (DevApi.refreshDevice existing t screen did).device_status =
         d.device_status ∧
       (DevApi.refreshDevice existing t screen did).current_script = some s) := by
  constructor
  · intro existing t screen did d h hnone
    unfold DevApi.refreshDevice
    rw [h]
    cases screen did <;> simp [hnone]
  · intro existing t screen did d s h hsome
    unfold DevApi.refreshDevice
    rw [h]
    cases screen did <;> simp [hsome]

/-- Witness for `refresh_reconciliation_unboundOnly` on one unbound and one
bound record. -/
theorem refresh_reconciliation_unboundOnly_witness :
    (DevApi.refreshDevice
        [{ id := "dev-2", device_name := "Device dev-2",
           device_status := "running" }] "T" (fun _ => none)
        "dev-2").device_status = "available" ∧
    (DevApi.refreshDevice
        [{ id := "dev-1", device_name := "Device dev-1",
           device_status := "running", current_script := some "s1" }] "T"
        (fun _ => none) "dev-1").device_status = "running" ∧
    (DevApi.refreshDevice
        [{ id := "dev-1", device_name := "Device dev-1",
           device_status := "running", current_script := some "s1" }] "T"
        (fun _ => none) "dev-1").current_script = some "s1" :=
  ⟨refresh_reconciliation_unboundOnly.1 _ "T" (fun _ => none) "dev-2"
     { id := "dev-2", device_name := "Device dev-2", device_status := "running" }
     (by rfl) (by rfl),
   (refresh_reconciliation_unboundOnly.2 _ "T" (fun _ => none) "dev-1"
     { id := "dev-1", device_name := "Device dev-1",
       device_status := "running", current_script := some "s1" } "s1"
     (by rfl) (by rfl)).1,
   (refresh_reconciliation_unboundOnly.2 _ "T" (fun _ => none) "dev-1"
     { id := "dev-1", device_name := "Device dev-1",
       device_status := "running", current_script := some "s1" } "s1"
     (by rfl) (by rfl)).2⟩

/-! ## C9: presence refresh leaves bindings untouched -/

theorem refreshDevice_id (existing : List DeviceRec) (t : String)
    (screen : String → Option (Int × Int)) (did : String) :
    (DevApi.refreshDevice existing t screen did).id = did := by
  unfold DevApi.refreshDevice
  cases h : db_get_device existing did with
  | none => cases screen did <;> rfl
  | some d =>
    have hid := db_get_device_some_id existing did d h
    by_cases h1 : d.current_script.isNone <;> cases h2 : screen did <;>
      simp [h1, h2, hid]

theorem db_get_foldl_save_frame (f : String → DeviceRec)
    (hid : ∀ c, (f c).id = c) :
    ∀ (cs : List String) (acc : List DeviceRec) (did : String), did ∉ cs →
      db_get_device (cs.foldl (fun a c => db_save_device a (f c)) acc) did =
        db_get_device acc did := by
  intro cs
  induction cs with
  | nil => intro acc did _; rfl
  | cons c rest ih =>
    intro acc did h
    have hne : did ≠ c := fun he => h (he ▸ List.mem_cons_self c rest)
    have hrest : did ∉ rest := fun hm => h (List.mem_cons_of_mem c hm)
    rw [List.foldl_cons, ih _ did hrest,
        db_get_device_save_other acc (f c) did (by simp [hid c, Ne.symm hne])]

theorem db_get_foldl_save_mem (f : String → DeviceRec)
    (hid : ∀ c, (f c).id = c) :
    ∀ (cs : List String) (acc : List DeviceRec) (did : String), did ∈ cs →
      db_get_device (cs.foldl (fun a c => db_save_device a (f c)) acc) did =
        some (f did) := by
  intro cs
  induction cs with
  | nil => intro acc did h; cases h
  | cons c rest ih =>
    intro acc did h
    by_cases hr : did ∈ rest
    · rw [List.foldl_cons]
      exact ih _ did hr
    · have hdc : did = c := by
        rcases List.mem_cons.1 h with h1 | h1
        · exact h1
        · exact absurd h1 hr
      subst hdc
      rw [List.foldl_cons, db_get_foldl_save_frame f hid rest _ did hr]
      have := db_get_device_save_self acc (f did)
      rwa [hid did] at this

/-- The per-device refresh carries the binding fields over verbatim, and a
bound record keeps its status. -/
theorem refreshDevice_preserves (existing : List DeviceRec) (t : String)
    (screen : String → Option (Int × Int)) (did : String) (d : DeviceRec)
    (h : db_get_device existing did = some d) :
    (DevApi.refreshDevice existing t screen did).current_script =
      d.current_script ∧
    (DevApi.refreshDevice existing t screen did).game_options =
      d.game_options ∧
    (d.current_script.isSome = true →
      (DevApi.refreshDevice existing t screen did).device_status =
        d.device_status) := by
  unfold DevApi.refreshDevice
  rw [h]
  by_cases h1 : d.current_script.isNone <;> cases h2 : screen did <;>
    simp [h1, h2]

/-- Whether the listing pass aborts on the missing `remove_devices` (some
device is disconnected, nothing persisted) or completes its saves (all
connected), the persisted record of a connected, already-known device
keeps its binding. -/
theorem refreshPass_preserves (connected : List String)
    (existing : List DeviceRec) (t : String)
    (screen : String → Option (Int × Int)) (did : String) (d : DeviceRec)
    (hd : db_get_device existing did = some d) (hc : did ∈ connected) :
    ∃ d2, db_get_device (DevApi.refreshPass connected existing t screen) did =
        some d2 ∧
      d2.current_script = d.current_script ∧
      d2.game_options = d.game_options ∧
      (d.current_script.isSome = true → d2.device_status = d.device_status) := by
  unfold DevApi.refreshPass
  by_cases hrem :
      (existing.filter (fun x => ¬ connected.contains x.id)).isEmpty
  · simp only [hrem, if_true]
    refine ⟨DevApi.refreshDevice existing t screen did, ?_, ?_⟩
    · rw [List.foldl_map]
      exact db_get_foldl_save_mem _ (refreshDevice_id existing t screen)
        connected _ did hc
    · exact refreshDevice_preserves existing t screen did d hd
  · simp only [hrem, Bool.false_eq_true, if_false]
    exact ⟨d, hd, rfl, rfl, fun _ => rfl⟩

/-- C9: the presence-refresh passes never alter an existing binding.  For a
connected device already in the registry, the per-device refresh changes
only `last_seen`, online status (and then only to `available` for an
unbound record) and `screen_size`, carrying the bound script id and run
options over verbatim and leaving a bound device's status (in particular
`running`) untouched; at the whole-pass level the persisted record of such
a device keeps its binding whether the pass completes its saves or aborts
on the core database's missing removal helpers.  The discovery thread's
per-device refresh likewise never assigns the binding fields. -/
theorem refresh_frameEffect :
    (∀ existing t screen did d, db_get_device existing did = some d →
       (DevApi.refreshDevice existing t screen did).current_script =
         d.current_script ∧
       (DevApi.refreshDevice existing t screen did).game_options =
         d.game_options ∧
       (d.current_script.isSome = true →
         (DevApi.refreshDevice existing t screen did).device_status =
           d.device_status)) ∧
    (∀ connected existing t screen did d,
       db_get_device existing did = some d → did ∈ connected →
       ∃ d2, db_get_device (DevApi.refreshPass connected existing t screen) did =
           some d2 ∧
         d2.current_script = d.current_script ∧
         d2.game_options = d.game_options ∧
         (d.current_script.isSome = true →
           d2.device_status = d.device_status)) ∧
    (∀ (d : DevMgr.MDevice) now ss,
       (DevMgr.refreshKnown d now ss).current_script = d.current_script ∧
       (DevMgr.refreshKnown d now ss).current_execution_id =
         d.current_execution_id ∧
       (d.status ≠ "offline" →
         (DevMgr.refreshKnown d now ss).status = d.status)) := by
  refine ⟨fun existing t screen did d h =>
            refreshDevice_preserves existing t screen did d h,
          fun connected existing t screen did d hd hc =>
            refreshPass_preserves connected existing t screen did d hd hc,
          ?_⟩
  intro d now ss
  unfold DevMgr.refreshKnown
  by_cases h1 : d.status == "offline" <;> by_cases h2 : d.screen_size.isNone <;>
    simp [h1, h2] <;> intro hne <;> exact absurd (eq_of_beq h1) hne

/-- Witness for `refresh_frameEffect` on a running, bound, connected
device. -/
theorem refresh_frameEffect_witness :
    ((DevApi.refreshDevice
        [{ id := "dev-1", device_name := "Device dev-1",
           device_status := "running", current_script := some "s1",
           game_options := some { max_loops := 7 } }] "T" (fun _ => none)
        "dev-1").current_script = some "s1" ∧
     (DevApi.refreshDevice
        [{ id := "dev-1", device_name := "Device dev-1",
           device_status := "running", current_script := some "s1",
           game_options := some { max_loops := 7 } }] "T" (fun _ => none)
        "dev-1").game_options = some { max_loops := 7 } ∧
     (DevApi.refreshDevice
        [{ id := "dev-1", device_name := "Device dev-1",
           device_status := "running", current_script := some "s1",
           game_options := some { max_loops := 7 } }] "T" (fun _ => none)
        "dev-1").device_status = "running") ∧
    (∃ d2, db_get_device
        (DevApi.refreshPass ["dev-1"]
          [{ id := "dev-1", device_name := "Device dev-1",
             device_status := "running", current_script := some "s1",
             game_options := some { max_loops := 7 } }] "T" (fun _ => none))
        "dev-1" = some d2 ∧
      d2.current_script = some "s1" ∧
      d2.game_options = some { max_loops := 7 } ∧
      ((some "s1" : Option String).isSome = true →
        d2.device_status = "running")) ∧
    (DevMgr.refreshKnown
        { name := "Device dev-1", status := "busy",
          current_script := some "s1" } "T" none).current_script = some "s1" := by
  refine ⟨?_, ?_, ?_⟩
  · have h := refresh_frameEffect.1
      [{ id := "dev-1", device_name := "Device dev-1",
         device_status := "running", current_script := some "s1",
         game_options := some { max_loops := 7 } }] "T" (fun _ => none) "dev-1"
      { id := "dev-1", device_name := "Device dev-1",
        device_status := "running", current_script := some "s1",
        game_options := some { max_loops := 7 } } (by rfl)
    exact ⟨h.1, h.2.1, h.2.2 (by rfl)⟩
  · exact refresh_frameEffect.2.1 ["dev-1"] _ "T" (fun _ => none) "dev-1"
      { id := "dev-1", device_name := "Device dev-1",
        device_status := "running", current_script := some "s1",
        game_options := some { max_loops := 7 } } (by rfl) (by simp)
  · exact (refresh_frameEffect.2.2
      { name := "Device dev-1", status := "busy", current_script := some "s1" }
      "T" none).1

/-! ## ScriptRunner under the real log sink: the loop never iterates

Because every `db.write_simple_log` call raises, the first statement of the
first loop iteration already throws, so the loop body never reaches the
entry point, never sleeps, and persists no device log.  The lemmas below
collapse `ScriptRunner.loopAux` and `ScriptRunner.tryBody` accordingly. -/

theorem runner_loopAux_stopFirst (t did sid : String) (n : Nat) (delay : Rat)
    (entry : Nat → CallOutcome) (stop : Nat → Bool) (i m c : Nat)
    (hs : stop c = true) :
    ScriptRunner.loopAux t did sid n delay entry stop i (m + 1) c =
      ([], [], [], 0, Except.ok (c + 1)) := by
  simp [ScriptRunner.loopAux, hs]

theorem runner_loopAux_crash (t did sid : String) (n : Nat) (delay : Rat)
    (entry : Nat → CallOutcome) (stop : Nat → Bool) (i m c : Nat)
    (hs : stop c = false) :
    ScriptRunner.loopAux t did sid n delay entry stop i (m + 1) c =
      ([], [ScriptRunner.loopFailErr (i + 1) ScriptRunner.attrError], [], 0,
       Except.error ScriptRunner.attrError) := by
  simp [ScriptRunner.loopAux, hs, ScriptRunner.write_simple_log]

theorem runner_loopAux_shape (t did sid : String) (n : Nat) (delay : Rat)
    (entry : Nat → CallOutcome) (stop : Nat → Bool) (i rem c : Nat) :
    (ScriptRunner.loopAux t did sid n delay entry stop i rem c).1 = [] ∧
    (ScriptRunner.loopAux t did sid n delay entry stop i rem c).2.2.1 = [] ∧
    (ScriptRunner.loopAux t did sid n delay entry stop i rem c).2.2.2.1 = 0 := by
  cases rem with
  | zero => simp [ScriptRunner.loopAux]
  | succ m =>
    cases hs : stop c with
    | false =>
      rw [runner_loopAux_crash t did sid n delay entry stop i m c hs]
      exact ⟨rfl, rfl, rfl⟩
    | true =>
      rw [runner_loopAux_stopFirst t did sid n delay entry stop i m c hs]
      exact ⟨rfl, rfl, rfl⟩

theorem runner_tryBody_shape (t did sid : String) (g : GameOptions)
    (openCall : CallOutcome) (entry : Nat → CallOutcome) (stop : Nat → Bool) :
    (ScriptRunner.tryBody t did sid g openCall entry stop).mainCalls = 0 ∧
    (ScriptRunner.tryBody t did sid g openCall entry stop).dbLogs = [] ∧
    (ScriptRunner.tryBody t did sid g openCall entry stop).sleeps = [] ∧
    (ScriptRunner.tryBody t did sid g openCall entry stop).openCalls =
      (if g.open_game then 1 else 0) := by
  obtain ⟨a0, b0, c0⟩ := runner_loopAux_shape t did sid g.max_loops.toNat
    g.loop_delay entry stop 0 g.max_loops.toNat 0
  obtain ⟨a1, b1, c1⟩ := runner_loopAux_shape t did sid g.max_loops.toNat
    g.loop_delay entry stop 0 g.max_loops.toNat 1
  unfold ScriptRunner.tryBody
  cases hog : g.open_game with
  | false =>
    simp only [hog, Bool.false_eq_true, if_false]
    cases hE : (ScriptRunner.loopAux t did sid g.max_loops.toNat g.loop_delay
        entry stop 0 g.max_loops.toNat 0).2.2.2.2 with
    | error e => simp [ScriptRunner.write_simple_log, hE, a0, b0, c0]
    | ok cf =>
      cases hcf : stop cf with
      | false => simp [ScriptRunner.write_simple_log, hE, hcf, a0, b0, c0]
      | true => simp [hE, hcf, a0, b0, c0]
  | true =>
    simp only [hog, if_true]
    cases openCall with
    | importError m =>
      simp [ScriptRunner.run_single_script, ScriptRunner.write_simple_log]
    | raises m =>
      simp [ScriptRunner.run_single_script, ScriptRunner.write_simple_log]
    | returns r =>
      simp only [ScriptRunner.run_single_script]
      cases hs0 : stop 0 with
      | true => simp [hs0]
      | false =>
        simp only [hs0, Bool.false_eq_true, if_false]
        cases hE : (ScriptRunner.loopAux t did sid g.max_loops.toNat g.loop_delay
            entry stop 0 g.max_loops.toNat 1).2.2.2.2 with
        | error e => simp [ScriptRunner.write_simple_log, hE, a1, b1, c1]
        | ok cf =>
          cases hcf : stop cf with
          | false => simp [ScriptRunner.write_simple_log, hE, hcf, a1, b1, c1]
          | true => simp [hE, hcf, a1, b1, c1]

/-! ## The core loop under an always-successful entry point -/

theorem core_loopAux_allOk (n : Nat) (delay : Rat)
    (entry : Nat → CallOutcome)
    (hok : ∀ i, ∃ r, entry i = CallOutcome.returns (some r) ∧
           r.success.getD true = true ∧ r.continue_loop.getD true = true) :
    ∀ rem i,
      (CoreExec.loopAux n delay entry i rem).1 =
        ((List.range' i rem).bind fun j =>
          ("Script loop iteration " ++ toString (j + 1) ++ "/" ++ toString n) ::
            (if j < n - 1 ∧ 0 < delay then
              ["Waiting " ++ toString delay ++ "s before next loop..."]
             else [])) ∧
      (CoreExec.loopAux n delay entry i rem).2.1 =
        ((List.range' i rem).bind fun j =>
          if j < n - 1 ∧ 0 < delay then [delay] else []) ∧
      (CoreExec.loopAux n delay entry i rem).2.2.1 = rem ∧
      (CoreExec.loopAux n delay entry i rem).2.2.2 = Except.ok (i + rem - 1) := by
  intro rem
  induction rem with
  | zero => intro i; simp [CoreExec.loopAux]
  | succ m ih =>
    intro i
    obtain ⟨r, hr, hs, hc⟩ := hok i
    unfold CoreExec.loopAux
    rw [hr]
    simp only [hs, hc]
    by_cases hcond : i < n - 1 ∧ 0 < delay
    · obtain ⟨h1, h4, h2, h3⟩ := ih (i + 1)
      simp [List.range', hcond, h1, h4, h2, h3]
      omega
    · obtain ⟨h1, h4, h2, h3⟩ := ih (i + 1)
      simp [List.range', hcond, h1, h4, h2, h3]
      omega

/-! ## C3: loop count respected -/

/-- Counterexample to C3 as stated for `ScriptRunner`: with `max_loops = 3`,
no stop request and an always-successful entry point, the runner's loop
executes zero iterations — the first iteration's `db.write_simple_log` call
raises `AttributeError` before the entry point is reached, the escaping
exception is logged only to the application log, and no device log (no
iteration log, no terminal log) is ever written. -/
theorem runnerLoop_zeroIterations_counterexample :
    ScriptRunner.tryBody "T" "dev-1" "s1" { max_loops := 3, loop_delay := 0 }
        (CallOutcome.returns none)
        (fun _ => CallOutcome.returns (some { success := some true }))
        (fun _ => false) =
      { dbLogs := [],
        loggerErrors := [ScriptRunner.loopFailErr 1 ScriptRunner.attrError,
                         ScriptRunner.deviceFailErr "dev-1" ScriptRunner.attrError],
        sleeps := [], mainCalls := 0, openCalls := 0,
        uncaught := some ScriptRunner.attrError } ∧
    (0 : Nat) ≠ 3 :=
  ⟨by rfl, by decide⟩

/-- C3 (amended): the loop-count property holds only for the core
process-based executor: for a validated run (`max_loops = N ≥ 1`), and an
entry point that always returns success with `continue_loop` left to its
default, its loop invokes the entry point exactly N times, logs iterations
1..N, and writes the terminal completed-log whose count is exactly N.  The
`ScriptRunner` used by the running service, however, always executes zero
iterations and persists no device logs, because its log sink
`db.write_simple_log` does not exist and the first iteration raises before
the entry point is called. -/
theorem loopCount_coreOnly (t did sid : String) (g : GameOptions)
    (openCall : CallOutcome) (entry : Nat → CallOutcome) (stop : Nat → Bool)
    (hN : 1 ≤ g.max_loops.toNat) (hopen : g.open_game = false)
    (hok : ∀ i, ∃ r, entry i = CallOutcome.returns (some r) ∧
           r.success = some true ∧ r.continue_loop = none) :
    ((CoreExec.tryBody sid g openCall entry).mainCalls = g.max_loops.toNat ∧
     (CoreExec.tryBody sid g openCall entry).logs =
       ["Script execution started: " ++ sid,
        "Script will run " ++ toString g.max_loops.toNat ++ " loop(s) with "
          ++ toString g.loop_delay ++ "s delay",
        "Loading script " ++ sid ++ "...",
        "Script " ++ sid ++ " loaded successfully"] ++
       ((List.range' 0 g.max_loops.toNat).bind fun j =>
         ("Script loop iteration " ++ toString (j + 1) ++ "/"
            ++ toString g.max_loops.toNat) ::
           (if j < g.max_loops.toNat - 1 ∧ 0 < g.loop_delay then
             ["Waiting " ++ toString g.loop_delay ++ "s before next loop..."]
            else [])) ++
       ["Script " ++ sid ++ " completed successfully after "
          ++ toString g.max_loops.toNat ++ " loop(s)"]) ∧
    ((ScriptRunner.tryBody t did sid g openCall entry stop).mainCalls = 0 ∧
     (ScriptRunner.tryBody t did sid g openCall entry stop).dbLogs = []) := by
  have hok2 : ∀ i, ∃ r, entry i = CallOutcome.returns (some r) ∧
      r.success.getD true = true ∧ r.continue_loop.getD true = true := by
    intro i
    obtain ⟨r, hr, hs, hc⟩ := hok i
    exact ⟨r, hr, by rw [hs]; rfl, by rw [hc]; rfl⟩
  constructor
  · obtain ⟨h1, h4, h2, h3⟩ := core_loopAux_allOk g.max_loops.toNat g.loop_delay
      entry hok2 g.max_loops.toNat 0
    simp [CoreExec.tryBody, hopen, h1, h2, h3]
    have hn : g.max_loops.toNat - 1 + 1 = g.max_loops.toNat := by omega
    rw [hn]
  · exact ⟨(runner_tryBody_shape t did sid g openCall entry stop).1,
           (runner_tryBody_shape t did sid g openCall entry stop).2.1⟩

/-- Witness for `loopCount_coreOnly` at `max_loops = 3`, `loop_delay = 0`:
the core loop makes exactly 3 entry-point invocations while the runner
makes none. -/
theorem loopCount_coreOnly_witness :
    (CoreExec.tryBody "s1" { max_loops := 3, loop_delay := 0 }
        (CallOutcome.returns none)
        (fun _ => CallOutcome.returns (some { success := some true }))).mainCalls
      = 3 ∧
    (ScriptRunner.tryBody "T" "dev-1" "s1" { max_loops := 3, loop_delay := 0 }
        (CallOutcome.returns none)
        (fun _ => CallOutcome.returns (some { success := some true }))
        (fun _ => false)).mainCalls = 0 := by
  have h := loopCount_coreOnly "T" "dev-1" "s1" { max_loops := 3, loop_delay := 0 }
    (CallOutcome.returns none)
    (fun _ => CallOutcome.returns (some { success := some true }))
    (fun _ => false) (by decide) (by rfl)
    (fun i => ⟨{ success := some true }, rfl, rfl, rfl⟩)
  exact ⟨h.1.1, h.2.1⟩

/-! ## C6: cancellation responsiveness of sleeps -/

/-- Counterexample to C6 as stated: with `loop_delay = 10` the core worker's
inter-loop delay is one single `time.sleep(10)` — not slices of at most
0.5 s — so a stop requested during the delay waits out the full 10 s. -/
theorem interLoopDelay_unsliced_counterexample :
    (CoreExec.tryBody "s1" { max_loops := 2, loop_delay := 10 }
        (CallOutcome.returns none)
        (fun _ => CallOutcome.returns (some { success := some true }))).sleeps
      = [10] ∧
    ¬ ((10 : Rat) ≤ 1 / 2) :=
  ⟨by rfl, by norm_num⟩

theorem sleepSlicesAux_le_half (isStop : Nat → Bool) :
    ∀ (fuel : Nat) (remaining : Rat) (k : Nat),
      ∀ x ∈ ScriptCore.sleepSlicesAux isStop remaining k fuel, x ≤ 1 / 2 := by
  intro fuel
  induction fuel with
  | zero => intro remaining k x hx; simp [ScriptCore.sleepSlicesAux] at hx
  | succ f ih =>
    intro remaining k x hx
    unfold ScriptCore.sleepSlicesAux at hx
    by_cases h0 : 0 < remaining
    · simp only [h0, if_true] at hx
      by_cases hs : isStop k
      · simp [hs] at hx
      · simp only [hs, Bool.false_eq_true, if_false] at hx
        rcases List.mem_cons.1 hx with h1 | h1
        · rw [h1]; exact min_le_left _ _
        · exact ih _ _ x h1
    · simp [h0] at hx

theorem sleepSlicesAux_stop_len (isStop : Nat → Bool) :
    ∀ (fuel m k : Nat) (remaining : Rat), isStop (k + m) = true →
      (ScriptCore.sleepSlicesAux isStop remaining k fuel).length ≤ m := by
  intro fuel
  induction fuel with
  | zero => intro m k remaining _; simp [ScriptCore.sleepSlicesAux]
  | succ f ih =>
    intro m k remaining h
    unfold ScriptCore.sleepSlicesAux
    by_cases h0 : 0 < remaining
    · simp only [h0, if_true]
      by_cases hs : isStop k
      · simp [hs]
      · simp only [hs, Bool.false_eq_true, if_false]
        cases m with
        | zero =>
          rw [Nat.add_zero] at h
          rw [h] at hs
          cases hs rfl
        | succ m' =>
          simp only [List.length_cons]
          have hnext := ih m' (k + 1) (remaining - min (1 / 2 : Rat) remaining)
            (by rw [show k + 1 + m' = k + (m' + 1) by omega]; exact h)
          omega
    · simp [h0]

/-- C6 (amended): the core worker's inter-loop delay is a single unsliced
`time.sleep(loop_delay)` (one stop check per iteration boundary only), so a
stop request arriving once the sleep has begun is not observed until the
full delay elapses; the service `ScriptRunner` never sleeps at all, since
its loop crashes on the missing log sink before any delay is reached;
sleeping in slices of at most 0.5 s with a stop recheck before every slice
exists only in the script-side helper `Core.sleep`, and only for durations
above 1 s (where a stop observed at check `m` ends the sleep after at most
`m` slices). -/
theorem interLoopDelay_slicing :
    (∀ sid (g : GameOptions) openCall entry,
       g.open_game = false →
       (∀ i, ∃ r, entry i = CallOutcome.returns (some r) ∧
          r.success.getD true = true ∧ r.continue_loop.getD true = true) →
       ∀ s ∈ (CoreExec.tryBody sid g openCall entry).sleeps,
         s = g.loop_delay) ∧
    (∀ t did sid (g : GameOptions) openCall entry stop,
       (ScriptRunner.tryBody t did sid g openCall entry stop).sleeps = []) ∧
    (∀ isStop (seconds : Rat), 1 < seconds →
       ∀ x ∈ ScriptCore.coreSleep isStop seconds, x ≤ 1 / 2) ∧
    (∀ isStop (seconds : Rat) (m : Nat), 1 < seconds → isStop m = true →
       (ScriptCore.coreSleep isStop seconds).length ≤ m) := by
  refine ⟨?_, ?_, ?_, ?_⟩
  · intro sid g openCall entry hopen hok s hs
    obtain ⟨h1, h4, h2, h3⟩ := core_loopAux_allOk g.max_loops.toNat g.loop_delay
      entry hok g.max_loops.toNat 0
    simp only [CoreExec.tryBody, hopen, Bool.false_eq_true, if_false, h3] at hs
    rw [h4] at hs
    simp only [List.mem_bind] at hs
    obtain ⟨j, _, hj⟩ := hs
    by_cases hc : j < g.max_loops.toNat - 1 ∧ 0 < g.loop_delay
    · simp [hc] at hj
      exact hj
    · simp [hc] at hj
  · intro t did sid g openCall entry stop
    exact (runner_tryBody_shape t did sid g openCall entry stop).2.2.1
  · intro isStop seconds h x hx
    unfold ScriptCore.coreSleep at hx
    rw [if_neg (by linarith), if_neg (by linarith)] at hx
    exact sleepSlicesAux_le_half isStop _ seconds 0 x hx
  · intro isStop seconds m h hm
    unfold ScriptCore.coreSleep
    rw [if_neg (by linarith), if_neg (by linarith)]
    exact sleepSlicesAux_stop_len isStop _ m 0 seconds (by simpa using hm)

/-- Witness for `interLoopDelay_slicing`: the core run with a 10-second
delay sleeps only in full 10-second chunks; the runner never sleeps;
`Core.sleep` over 2 s slices at 0.5 s and an immediate stop yields no
slices at all. -/
theorem interLoopDelay_slicing_witness :
    (∀ s ∈ (CoreExec.tryBody "s1" { max_loops := 2, loop_delay := 10 }
        (CallOutcome.returns none)
        (fun _ => CallOutcome.returns (some { success := some true }))).sleeps,
      s = (10 : Rat)) ∧
    (ScriptRunner.tryBody "T" "dev-1" "s1" { max_loops := 2, loop_delay := 10 }
        (CallOutcome.returns none)
        (fun _ => CallOutcome.returns (some { success := some true }))
        (fun _ => false)).sleeps = [] ∧
    (∀ x ∈ ScriptCore.coreSleep (fun _ => false) 2, x ≤ 1 / 2) ∧
    (ScriptCore.coreSleep (fun _ => true) 2).length ≤ 0 := by
  refine ⟨?_, ?_, ?_, ?_⟩
  · intro s hs
    exact interLoopDelay_slicing.1 "s1" { max_loops := 2, loop_delay := 10 }
      (CallOutcome.returns none)
      (fun _ => CallOutcome.returns (some { success := some true }))
      (by rfl) (fun i => ⟨{ success := some true }, rfl, rfl, rfl⟩) s hs
  · exact interLoopDelay_slicing.2.1 "T" "dev-1" "s1"
      { max_loops := 2, loop_delay := 10 } (CallOutcome.returns none)
      (fun _ => CallOutcome.returns (some { success := some true }))
      (fun _ => false)
  · intro x hx
    exact interLoopDelay_slicing.2.2.1 (fun _ => false) 2 (by norm_num) x hx
  · exact interLoopDelay_slicing.2.2.2 (fun _ => true) 2 0 (by norm_num) rfl

/-! ## Failure outcomes of an entry-point call -/

/-- An entry-point call the loop procedures treat as failed: it raises
(while importing or running), or returns a result whose `success` field is
`False`. -/
def callFails (o : CallOutcome) : Prop :=
  (∃ m, o = CallOutcome.raises m) ∨ (∃ m, o = CallOutcome.importError m) ∨
  (∃ r, o = CallOutcome.returns (some r) ∧ r.success.getD true = false)

theorem core_tryBody_openFail (sid : String) (g : GameOptions)
    (openCall : CallOutcome) (entry : Nat → CallOutcome)
    (hopen : g.open_game = true) (hfail : callFails openCall) :
    ∃ e, (CoreExec.tryBody sid g openCall entry).outcome = Except.error e ∧
         (CoreExec.tryBody sid g openCall entry).mainCalls = 0 ∧
         (CoreExec.tryBody sid g openCall entry).openCalls = 1 := by
  rcases hfail with ⟨m, hm⟩ | ⟨m, hm⟩ | ⟨r, hm, hs⟩
  · subst hm
    simp [CoreExec.tryBody, hopen]
  · subst hm
    simp [CoreExec.tryBody, hopen]
  · subst hm
    simp [CoreExec.tryBody, hopen, hs]

theorem core_worker_err_mem (did sid : String) (g : GameOptions)
    (openCall : CallOutcome) (entry : Nat → CallOutcome)
    (reg : List DeviceRec) (handles : List String) (e : String)
    (he : (CoreExec.tryBody sid g openCall entry).outcome = Except.error e) :
    ("ERROR: " ++ ("Script execution failed: " ++ e)) ∈
      (CoreExec.worker did sid g openCall entry reg handles).logs ∧
    (CoreExec.worker did sid g openCall entry reg handles).mainCalls =
      (CoreExec.tryBody sid g openCall entry).mainCalls ∧
    (CoreExec.worker did sid g openCall entry reg handles).openCalls =
      (CoreExec.tryBody sid g openCall entry).openCalls := by
  simp only [CoreExec.worker, he]
  simp

/-! ## C1: failure recovery at the loop-procedure boundary -/

/-- C1: refuted — code bug.  In the core process executor the entry-point
exception *is* caught and logged and the worker handle *is* removed, but
the release step never succeeds: `core/database.py`'s `stop_device_script`
assigns `device.device_running_id`, a field the pydantic `Device` model
does not declare, so it raises before saving, and a bound device keeps
`device_status = "running"` and its `current_script` binding forever — on
the failing run below, and even on a fully successful run.  In the service
`ScriptRunner` the cleanup does release the device, but no error is ever
written to the device log (`dbLogs = []`) and the `AttributeError` from the
missing `db.write_simple_log` sink escapes the worker body into the
thread. -/
theorem deviceStuck_running_bug :
    (CoreExec.worker "dev-1" "s1" { max_loops := 2, loop_delay := 0 }
        (CallOutcome.returns none) (fun _ => CallOutcome.raises "boom")
        [{ id := "dev-1", device_name := "Device dev-1",
           device_status := "running", current_script := some "s1" }]
        ["dev-1"]).reg =
      [{ id := "dev-1", device_name := "Device dev-1",
         device_status := "running", current_script := some "s1" }] ∧
    db_get_device (CoreExec.worker "dev-1" "s1" { max_loops := 2, loop_delay := 0 }
        (CallOutcome.returns none) (fun _ => CallOutcome.raises "boom")
        [{ id := "dev-1", device_name := "Device dev-1",
           device_status := "running", current_script := some "s1" }]
        ["dev-1"]).reg "dev-1" =
      some { id := "dev-1", device_name := "Device dev-1",
             device_status := "running", current_script := some "s1" } ∧
    (CoreExec.worker "dev-1" "s1" { max_loops := 2, loop_delay := 0 }
        (CallOutcome.returns none) (fun _ => CallOutcome.raises "boom")
        [{ id := "dev-1", device_name := "Device dev-1",
           device_status := "running", current_script := some "s1" }]
        ["dev-1"]).handles = [] ∧
    ("ERROR: " ++ ("Script execution failed: " ++ "boom")) ∈
      (CoreExec.worker "dev-1" "s1" { max_loops := 2, loop_delay := 0 }
        (CallOutcome.returns none) (fun _ => CallOutcome.raises "boom")
        [{ id := "dev-1", device_name := "Device dev-1",
           device_status := "running", current_script := some "s1" }]
        ["dev-1"]).logs ∧
    (CoreExec.worker "dev-1" "s1" { max_loops := 1, loop_delay := 0 }
        (CallOutcome.returns none)
        (fun _ => CallOutcome.returns (some { success := some true }))
        [{ id := "dev-1", device_name := "Device dev-1",
           device_status := "running", current_script := some "s1" }]
        ["dev-1"]).reg =
      [{ id := "dev-1", device_name := "Device dev-1",
         device_status := "running", current_script := some "s1" }] ∧
    (ScriptRunner.worker "T" "dev-1" "s1" { max_loops := 2, loop_delay := 0 }
        (CallOutcome.returns none) (fun _ => CallOutcome.raises "boom")
        (fun _ => false) ⟨["dev-1"], ["dev-1"]⟩
        [{ id := "dev-1", device_name := "Device dev-1",
           device_status := "running", current_script := some "s1" }]).1.uncaught =
      some ScriptRunner.attrError ∧
    (ScriptRunner.worker "T" "dev-1" "s1" { max_loops := 2, loop_delay := 0 }
        (CallOutcome.returns none) (fun _ => CallOutcome.raises "boom")
        (fun _ => false) ⟨["dev-1"], ["dev-1"]⟩
        [{ id := "dev-1", device_name := "Device dev-1",
           device_status := "running", current_script := some "s1" }]).1.dbLogs =
      [] := by
  refine ⟨by rfl, by rfl, by rfl, by decide, by rfl, by rfl, by rfl⟩

/-! ## C7: open-game gating -/

/-- Counterexample to C7 as stated: in `ScriptRunner` an open-game entry
point that returns a failure result (`success = False`, message `boom`) is
indistinguishable from one that succeeds — the return value is discarded at
line 88, so the run's whole observable trace is identical in the two cases,
no open-game error is logged anywhere (the only logged errors concern the
unrelated missing log sink), and the run does not terminate at the gate but
proceeds into the main loop. -/
theorem openGameFailure_counterexample :
    ScriptRunner.tryBody "T" "dev-1" "s1"
        { open_game := true, max_loops := 1, loop_delay := 0 }
        (CallOutcome.returns (some { success := some false, message := some "boom" }))
        (fun _ => CallOutcome.returns (some { success := some true }))
        (fun _ => false) =
      ScriptRunner.tryBody "T" "dev-1" "s1"
        { open_game := true, max_loops := 1, loop_delay := 0 }
        (CallOutcome.returns (some { success := some true }))
        (fun _ => CallOutcome.returns (some { success := some true }))
        (fun _ => false) ∧
    ScriptRunner.tryBody "T" "dev-1" "s1"
        { open_game := true, max_loops := 1, loop_delay := 0 }
        (CallOutcome.returns (some { success := some false, message := some "boom" }))
        (fun _ => CallOutcome.returns (some { success := some true }))
        (fun _ => false) =
      { dbLogs := [],
        loggerErrors := [ScriptRunner.loopFailErr 1 ScriptRunner.attrError,
                         ScriptRunner.deviceFailErr "dev-1" ScriptRunner.attrError],
        sleeps := [], mainCalls := 0, openCalls := 1,
        uncaught := some ScriptRunner.attrError } :=
  ⟨by rfl, by rfl⟩

/-- C7 (amended): with `options.open_game` set, the open-game entry point
runs exactly once.  In `ScriptRunner` a *raised* exception aborts the run
(the error reaches only the application log, and the `AttributeError` from
the missing device-log sink escapes the worker body), while a returned
failure result is silently discarded; the main entry point is never
invoked in either case — not because of the gate but because every loop
iteration crashes on the missing log sink first.  In the core executor a
raised exception or failure result from the open-game call aborts the run
before the main script with an `ERROR` log. -/
theorem openGame_gating :
    (∀ t did sid (g : GameOptions) openCall entry stop, g.open_game = true →
       (ScriptRunner.tryBody t did sid g openCall entry stop).openCalls = 1) ∧
    (∀ t did sid (g : GameOptions) (m : String) entry stop, g.open_game = true →
       ScriptRunner.tryBody t did sid g (CallOutcome.raises m) entry stop =
         { dbLogs := [],
           loggerErrors := ["Open game script failed: "
               ++ ("Script open_game execution failed: " ++ m),
             ScriptRunner.deviceFailErr did ScriptRunner.attrError],
           sleeps := [], mainCalls := 0, openCalls := 1,
           uncaught := some ScriptRunner.attrError }) ∧
    (∀ did sid (g : GameOptions) openCall entry (reg : List DeviceRec)
       (handles : List String), g.open_game = true → callFails openCall →
       (CoreExec.worker did sid g openCall entry reg handles).mainCalls = 0 ∧
       (CoreExec.worker did sid g openCall entry reg handles).openCalls = 1 ∧
       ∃ e, ("ERROR: " ++ e) ∈
         (CoreExec.worker did sid g openCall entry reg handles).logs) ∧
    (∀ t did sid (g : GameOptions) openCall entry stop,
       (ScriptRunner.tryBody t did sid g openCall entry stop).mainCalls = 0) := by
  refine ⟨?_, ?_, ?_, ?_⟩
  · intro t did sid g openCall entry stop hog
    have h := (runner_tryBody_shape t did sid g openCall entry stop).2.2.2
    simpa [hog] using h
  · intro t did sid g m entry stop hog
    simp [ScriptRunner.tryBody, hog, ScriptRunner.run_single_script,
      ScriptRunner.write_simple_log]
  · intro did sid g openCall entry reg handles hog hfail
    obtain ⟨e, he, hmc, hoc⟩ := core_tryBody_openFail sid g openCall entry hog hfail
    obtain ⟨hmem, hm2, ho2⟩ :=
      core_worker_err_mem did sid g openCall entry reg handles e he
    exact ⟨hm2.trans hmc, ho2.trans hoc,
      ⟨"Script execution failed: " ++ e, hmem⟩⟩
  · intro t did sid g openCall entry stop
    exact (runner_tryBody_shape t did sid g openCall entry stop).1

/-- Witness for `openGame_gating` at each of its four parts. -/
theorem openGame_gating_witness :
    (ScriptRunner.tryBody "T" "dev-1" "s1"
        { open_game := true, max_loops := 1, loop_delay := 0 }
        (CallOutcome.returns none)
        (fun _ => CallOutcome.returns (some { success := some true }))
        (fun _ => false)).openCalls = 1 ∧
    ScriptRunner.tryBody "T" "dev-1" "s1"
        { open_game := true, max_loops := 1, loop_delay := 0 }
        (CallOutcome.raises "boom")
        (fun _ => CallOutcome.returns (some { success := some true }))
        (fun _ => false) =
      { dbLogs := [],
        loggerErrors := ["Open game script failed: "
            ++ ("Script open_game execution failed: " ++ "boom"),
          ScriptRunner.deviceFailErr "dev-1" ScriptRunner.attrError],
        sleeps := [], mainCalls := 0, openCalls := 1,
        uncaught := some ScriptRunner.attrError } ∧
    (CoreExec.worker "dev-1" "s1" { open_game := true, max_loops := 1, loop_delay := 0 }
        (CallOutcome.returns (some { success := some false, message := some "boom" }))
        (fun _ => CallOutcome.returns (some { success := some true }))
        [] []).mainCalls = 0 ∧
    (ScriptRunner.tryBody "T" "dev-1" "s1"
        { open_game := true, max_loops := 1, loop_delay := 0 }
        (CallOutcome.returns (some { success := some false, message := some "boom" }))
        (fun _ => CallOutcome.returns (some { success := some true }))
        (fun _ => false)).mainCalls = 0 := by
  refine ⟨?_, ?_, ?_, ?_⟩
  · exact openGame_gating.1 "T" "dev-1" "s1"
      { open_game := true, max_loops := 1, loop_delay := 0 }
      (CallOutcome.returns none)
      (fun _ => CallOutcome.returns (some { success := some true }))
      (fun _ => false) (by rfl)
  · exact openGame_gating.2.1 "T" "dev-1" "s1"
      { open_game := true, max_loops := 1, loop_delay := 0 } "boom"
      (fun _ => CallOutcome.returns (some { success := some true }))
      (fun _ => false) (by rfl)
  · exact (openGame_gating.2.2.1 "dev-1" "s1"
      { open_game := true, max_loops := 1, loop_delay := 0 }
      (CallOutcome.returns (some { success := some false, message := some "boom" }))
      (fun _ => CallOutcome.returns (some { success := some true })) [] []
      (by rfl) (Or.inr (Or.inr ⟨{ success := some false, message := some "boom" },
        rfl, rfl⟩))).1
  · exact openGame_gating.2.2.2 "T" "dev-1" "s1"
      { open_game := true, max_loops := 1, loop_delay := 0 }
      (CallOutcome.returns (some { success := some false, message := some "boom" }))
      (fun _ => CallOutcome.returns (some { success := some true }))
      (fun _ => false)

end KvtmAuto
